import Mathlib

/-!
# Verification of the admin-dashboard query/aggregation layer

Shallow embedding of the admin dashboard repository: the React frontend
(`DataTable.tsx`, `ToolsList`, `Conversations`, `ConversationDetail`,
`services/api.ts`) is translated directly from its TypeScript source; the
FastAPI backend (pagination, filtering, statistics, bucketing) is not part
of the source tree, so those components are modelled from the
specification, each such definition marked `Modelled from the spec:`.
-/

namespace Admin

/-- A tool-usage entry, from `types` (`Tool`): a tool name and a usage count. -/
structure Tool where
  tool : String
  count : Nat
  deriving DecidableEq, Repr

/-- A conversation row, from `types` (`Conversation`); timestamps are modelled
as integers (milliseconds since epoch), optional strings as `Option`. -/
structure Conversation where
  id : Nat
  user_id : Nat
  started_at : Int
  last_message_at : Int
  message_count : Nat
  error_count : Nat
  deriving DecidableEq, Repr

/-- A message role, from `types` (`Message.role`). -/
inductive Role where
  | user
  | assistant
  deriving DecidableEq, Repr

/-- A message row, from `types` (`Message`): content is a character list,
`tools_used` and `error` are optional as in the TypeScript interface. -/
structure Message where
  id : Nat
  conversation_id : Nat
  role : Role
  content : List Char
  timestamp : Int
  response_time_ms : Option Nat
  tools_used : Option (List (List Char))
  error : Option (List Char)
  deriving DecidableEq, Repr

/-! ## ToolsList (frontend component, `src/unnamed/part_001`) -/

/-- `ToolsList.maxCount`, from `const maxCount = Math.max(...tools.map((t) => t.count), 1)`:
the maximum of all tool counts and the constant 1. -/
def maxCount (tools : List Tool) : Nat :=
  (tools.map (fun t => t.count)).foldr max 1

/-- The bar width numerator/denominator pair used in
`style={{ width: (tool.count / maxCount) * 100 }}`, in integer percent. -/
def barWidthPct (c : Nat) (tools : List Tool) : Nat :=
  c * 100 / maxCount tools

/-! ## DataTable pagination controls (frontend, `DataTable.tsx` lines 99-115)

The Previous button computes `Math.max(0, offset - limit)` and is disabled
iff `offset === 0`; the Next button computes `offset + limit` and is
disabled iff `offset + limit >= total`.  Over `Nat`, `max 0 (o - limit)`
is truncated subtraction `o - limit`. -/

/-- The transition system of DataTable pagination offsets: start at 0; an
enabled Previous click goes to `max 0 (o - limit)` (enabled iff `o ≠ 0`);
an enabled Next click goes to `o + limit` (enabled iff `o + limit < total`). -/
inductive Reach (total limit : Nat) : Nat → Prop where
  | init : Reach total limit 0
  | prev {o : Nat} : Reach total limit o → o ≠ 0 → Reach total limit (o - limit)
  | next {o : Nat} : Reach total limit o → o + limit < total → Reach total limit (o + limit)

/-! ## PaginationEngine (backend, not in the source tree) -/

/-- Modelled from the spec: the backend PaginationEngine (§4.3) is missing
from the source tree.  It applies limit/offset windowing to the filtered row
set: the page is `(rows.drop offset).take limit` and `total` is the length
of the filtered row set, ignoring limit/offset. -/
def paginate (rows : List Conversation) (limit offset : Nat) : List Conversation :=
  (rows.drop offset).take limit

/-! ## StatsAggregator percentiles (backend, not in the source tree) -/

/-- Modelled from the spec: StatsAggregator (§4.4) sorts the response-time
sample ascending; `List.insertionSort` is that ascending sort. -/
def sortAsc (xs : List Nat) : List Nat :=
  List.insertionSort (· ≤ ·) xs

/-- Modelled from the spec: the nearest-rank index `ceil(p/100 * n) − 1`
clamped to `[0, n−1]`; over `Nat`, `ceil(p*n/100)` is `(p*n + 99)/100` and
truncated subtraction clamps the lower end at 0. -/
def percentileIdx (p n : Nat) : Nat :=
  min (n - 1) ((p * n + 99) / 100 - 1)

/-- Modelled from the spec: the p-th nearest-rank percentile of a
response-time sample; 0 for the empty sample. -/
def percentile (p : Nat) (xs : List Nat) : Nat :=
  if xs.length = 0 then 0 else (sortAsc xs).getD (percentileIdx p xs.length) 0

/-- Modelled from the spec: the average response time (arithmetic mean),
0 for the empty sample. -/
def avgResponseTime (xs : List Nat) : Nat :=
  if xs.length = 0 then 0 else xs.sum / xs.length

/-! ## ActivityBucketizer (backend, not in the source tree) -/

/-- An activity bucket, from `types` (`ActivityBucket`): the bucket label is
modelled as the window's start timestamp (seconds since epoch). -/
structure ActivityBucket where
  bucket : Int
  messages : Nat
  errors : Nat
  deriving DecidableEq, Repr

/-- A message lies in the half-open window `[start, start + width)`. -/
def inWindow (start width : Int) (m : Message) : Bool :=
  decide (start ≤ m.timestamp ∧ m.timestamp < start + width)

/-- Modelled from the spec: one fixed-width bucket counts messages and
errors independently over its window. -/
def mkBucket (msgs : List Message) (start width : Int) : ActivityBucket :=
  { bucket := start
    messages := msgs.countP (inWindow start width)
    errors := msgs.countP (fun m => inWindow start width m && m.error.isSome) }

/-- Start of hourly bucket `i` (0 = oldest, 23 = the hour of generation):
the generation timestamp truncated to the hour, minus `23 − i` hours. -/
def hourStart (t : Int) (i : Nat) : Int :=
  (t / 3600) * 3600 + ((i : Int) - 23) * 3600

/-- Start of daily bucket `i` (0 = oldest, 13 = the day of generation). -/
def dayStart (t : Int) (i : Nat) : Int :=
  (t / 86400) * 86400 + ((i : Int) - 13) * 86400

/-- Modelled from the spec: ActivityBucketizer (§4.5) hourly series — 24
one-hour buckets anchored to the generation timestamp truncated to the hour,
oldest first, every bucket present even with zero messages. -/
def hourlyBuckets (t : Int) (msgs : List Message) : List ActivityBucket :=
  (List.range 24).map (fun i => mkBucket msgs (hourStart t i) 3600)

/-- Modelled from the spec: ActivityBucketizer (§4.5) daily series — 14
one-day buckets anchored to the generation timestamp truncated to the day,
oldest first, every bucket present even with zero messages. -/
def dailyBuckets (t : Int) (msgs : List Message) : List ActivityBucket :=
  (List.range 14).map (fun i => mkBucket msgs (dayStart t i) 86400)

/-! ## Conversations page query parameters (frontend, `src/unnamed/part_005`) -/

/-- The tri-state error filter of the Conversations page
(`type ErrorFilter = 'all' | 'with_errors' | 'without_errors'`). -/
inductive ErrorFilter where
  | all
  | with_errors
  | without_errors
  deriving DecidableEq, Repr

/-- The request parameters built by `Conversations.queryParams`; optional
parameters are `none` when omitted from the request. -/
structure ConvParams where
  limit : Nat
  offset : Nat
  search : Option String
  date_from : Option String
  date_to : Option String
  has_error : Option Bool
  deriving DecidableEq, Repr

/-- `Conversations.queryParams` (part_005 lines 43-51): always sends
`limit`/`offset`; sends `search`/`date_from`/`date_to` only when the string
is non-empty (JavaScript truthiness); sends `has_error = true` for
`with_errors`, `has_error = false` for `without_errors`, and omits it for
`all`. -/
def queryParams (limit offset : Nat) (search dateFrom dateTo : String)
    (ef : ErrorFilter) : ConvParams :=
  { limit := limit
    offset := offset
    search := if search = "" then none else some search
    date_from := if dateFrom = "" then none else some dateFrom
    date_to := if dateTo = "" then none else some dateTo
    has_error := match ef with
      | .with_errors => some true
      | .without_errors => some false
      | .all => none }

/-! ## Backend conversations filter (not in the source tree) -/

/-- Modelled from the spec: the backend FilterBuilder predicate for the
conversations listing — `has_error = true` keeps rows with `error_count > 0`,
`has_error = false` keeps rows with `error_count = 0`, absent means no
filter; `date_from`/`date_to` bound `last_message_at` inclusively, each
bound optional. -/
def convMatches (has_error : Option Bool) (date_from date_to : Option Int)
    (c : Conversation) : Bool :=
  (match has_error with
    | none => true
    | some true => decide (0 < c.error_count)
    | some false => decide (c.error_count = 0))
  && (match date_from with
    | none => true
    | some a => decide (a ≤ c.last_message_at))
  && (match date_to with
    | none => true
    | some b => decide (c.last_message_at ≤ b))

/-- Modelled from the spec: the filtered conversations listing. -/
def filterConversations (has_error : Option Bool) (date_from date_to : Option Int)
    (convs : List Conversation) : List Conversation :=
  convs.filter (convMatches has_error date_from date_to)

/-! ## Case-insensitive substring search (frontend, `src/unnamed/part_004`) -/

/-- `toLowerCase()` over a character list. -/
def lowerStr (s : List Char) : List Char :=
  s.map Char.toLower

/-- Whether the first list is a prefix of the second (helper for the
substring check). -/
def listPrefixOf : List Char → List Char → Bool
  | [], _ => true
  | _ :: _, [] => false
  | a :: as, b :: bs => a == b && listPrefixOf as bs

/-- JavaScript `String.includes`: the needle occurs as a contiguous
substring of the haystack. -/
def subStr (needle : List Char) : List Char → Bool
  | [] => needle.isEmpty
  | c :: rest => listPrefixOf needle (c :: rest) || subStr needle rest

/-- The role filter of the ConversationDetail page
(`type RoleFilter = 'all' | 'user' | 'assistant'`). -/
inductive RoleFilter where
  | all
  | user
  | assistant
  deriving DecidableEq, Repr

/-- The search test of `ConversationDetail.filteredMessages` (part_004
lines 50-55): lowercase the query, match it as a substring of the lowercased
content, of any lowercased tool name, or of the lowercased error text. -/
def msgMatchesSearch (q : List Char) (m : Message) : Bool :=
  let query := lowerStr q
  subStr query (lowerStr m.content)
    || (match m.tools_used with
        | none => false
        | some ts => ts.any (fun t => subStr query (lowerStr t)))
    || (match m.error with
        | none => false
        | some e => subStr query (lowerStr e))

/-- `ConversationDetail.filteredMessages` (part_004 lines 45-66): keep a
message iff (the search query is empty or it matches the search test), the
role filter is `all` or equals the message role, and (errors-only is off or
the message has an error). -/
def filteredMessages (q : List Char) (rf : RoleFilter) (errOnly : Bool)
    (msgs : List Message) : List Message :=
  msgs.filter (fun m =>
    (if q = [] then true else msgMatchesSearch q m)
      && (match rf with
          | .all => true
          | .user => m.role == Role.user
          | .assistant => m.role == Role.assistant)
      && (!errOnly || m.error.isSome))

/-- Modelled from the spec: the backend FilterBuilder search predicate over
a row's searchable text fields — absent search means no filter, a present
search is a case-insensitive substring match against any field. -/
def rowMatchesSearch (search : Option (List Char)) (fields : List (List Char)) : Bool :=
  match search with
  | none => true
  | some q => fields.any (fun f => subStr (lowerStr q) (lowerStr f))

/-- Modelled from the spec: the search-filtered listing, each row given by
its searchable fields. -/
def filterRowsBySearch (search : Option (List Char)) (rows : List (List (List Char))) :
    List (List (List Char)) :=
  rows.filter (rowMatchesSearch search)

/-! ## Error taxonomy (spec §7) -/

/-- The error taxonomy relevant to the claims: `NotFound` for a missing
conversation id, `InvalidParam` for a malformed limit/offset with the
offending field named. -/
inductive AdminError where
  | notFound
  | invalidParam (field : String)
  deriving DecidableEq, Repr

/-! ## ConversationAssembler (backend, not in the source tree) -/

/-- The backing store visible to the assembler: all conversation rows and
all message rows (messages in store order, i.e. insertion order). -/
structure Store where
  conversations : List Conversation
  messages : List Message

/-- The conversation-detail response: metadata joined with the complete
ordered message thread. -/
structure ConvDetail where
  conversation : Conversation
  messages : List Message
  deriving DecidableEq, Repr

/-- Modelled from the spec: ConversationAssembler (§4.6) behind
`adminApi.getConversation` — a missing identifier signals `NotFound`; a
present identifier yields the conversation joined with its complete,
unpaginated message thread in store order. -/
def getConversation (st : Store) (id : Nat) : Except AdminError ConvDetail :=
  match st.conversations.find? (fun c => c.id == id) with
  | none => .error .notFound
  | some c => .ok ⟨c, st.messages.filter (fun m => m.conversation_id == id)⟩

/-! ## List-endpoint parameter validation (backend, not in the source tree) -/

/-- Decimal digits accumulated left to right; any non-digit character makes
the whole parse fail. -/
def readNatAux : List Char → Nat → Option Nat
  | [], acc => some acc
  | c :: cs, acc =>
      if c.isDigit then readNatAux cs (10 * acc + (c.toNat - 48)) else none

/-- Modelled from the spec: integer parsing of a raw query-string value —
an optional leading minus sign followed by decimal digits; anything else is
non-numeric and fails. -/
def strToInt (s : String) : Option Int :=
  match s.data with
  | [] => none
  | '-' :: rest =>
      match rest with
      | [] => none
      | _ => (readNatAux rest 0).map (fun n => -(n : Int))
  | cs => (readNatAux cs 0).map (fun n => (n : Int))

/-- Modelled from the spec: validation of one pagination field (§6) — an
omitted value takes the default, a non-numeric or negative value fails with
`InvalidParam` naming the field. -/
def parseField (name : String) (raw : Option String) (dflt : Nat) :
    Except AdminError Nat :=
  match raw with
  | none => .ok dflt
  | some s =>
      match strToInt s with
      | none => .error (.invalidParam name)
      | some n => if n < 0 then .error (.invalidParam name) else .ok n.toNat

/-- Modelled from the spec: validation of a list-endpoint request's
`limit`/`offset` pair, defaults 50 and 0; the first failing field aborts
the request with its error. -/
def parseListParams (limitRaw offsetRaw : Option String) :
    Except AdminError (Nat × Nat) :=
  match parseField "limit" limitRaw 50 with
  | .error e => .error e
  | .ok l =>
      match parseField "offset" offsetRaw 0 with
      | .error e => .error e
      | .ok o => .ok (l, o)

/-! ## Tools endpoint (frontend `api.ts` + backend ranking) -/

/-- `adminApi.getTools` (api.ts line 45): the `limit` parameter defaults
to 8 when the caller passes none. -/
def getToolsLimit (l : Option Nat) : Nat :=
  l.getD 8

/-- Modelled from the spec: the tools ranking order — usage count
descending, ties broken by tool name ascending. -/
def toolRank (a b : Tool) : Prop :=
  b.count < a.count ∨ (a.count = b.count ∧ a.tool ≤ b.tool)

instance : DecidableRel toolRank := fun a b => by
  unfold toolRank
  infer_instance

instance : IsTotal Tool toolRank where
  total a b := by
    unfold toolRank
    rcases Nat.lt_trichotomy a.count b.count with h | h | h
    · exact Or.inr (Or.inl h)
    · rcases le_total a.tool b.tool with ht | ht
      · exact Or.inl (Or.inr ⟨h, ht⟩)
      · exact Or.inr (Or.inr ⟨h.symm, ht⟩)
    · exact Or.inl (Or.inl h)

instance : IsTrans Tool toolRank where
  trans a b c hab hbc := by
    unfold toolRank at hab hbc ⊢
    rcases hab with h1 | ⟨h1, h1'⟩ <;> rcases hbc with h2 | ⟨h2, h2'⟩
    · exact Or.inl (by omega)
    · exact Or.inl (by omega)
    · exact Or.inl (by omega)
    · exact Or.inr ⟨by omega, le_trans h1' h2'⟩

/-- Modelled from the spec: the `/tools` result — the tool-usage rows sorted
by `toolRank` (count descending, name-ascending ties), truncated to the
requested limit. -/
def topTools (tools : List Tool) (limit : Nat) : List Tool :=
  (List.insertionSort toolRank tools).take limit

end Admin

namespace Admin

/-! ## Claim C1 -/

theorem paginate_length (rows : List Conversation) (limit offset : Nat) :
    (paginate rows limit offset).length = min limit (rows.length - offset) := by
  simp [paginate]

/-- C1: for every valid `(limit, offset)` pair the page returned by the
pagination engine has length exactly `min(limit, max(0, total − offset))`
where `total` is the filtered row count; a nonempty partial page (not an
error) when `offset < total`, an empty page when `offset ≥ total`. -/
theorem c1_page_length (rows : List Conversation) (limit offset : Nat) :
    ((paginate rows limit offset).length : Int)
        = min (limit : Int) (max 0 ((rows.length : Int) - (offset : Int)))
      ∧ (rows.length ≤ offset → paginate rows limit offset = [])
      ∧ (offset < rows.length → 0 < limit → paginate rows limit offset ≠ []) := by
  refine ⟨?_, ?_, ?_⟩
  · have h := paginate_length rows limit offset
    have h' : ((paginate rows limit offset).length : Int)
        = ((min limit (rows.length - offset) : Nat) : Int) := by rw [h]
    rw [h']
    push_cast
    omega
  · intro h
    have hl := paginate_length rows limit offset
    have : (paginate rows limit offset).length = 0 := by omega
    exact List.length_eq_zero.mp this
  · intro h hlim
    have hl := paginate_length rows limit offset
    intro hcontra
    rw [hcontra] at hl
    simp at hl
    omega

/-- C1 witness: 5 rows, `limit = 3`, `offset = 4`: the page has the single
remaining row, `min(3, max(0, 5 − 4)) = 1`, and is nonempty. -/
theorem c1_witness :
    ((paginate (List.replicate 5 ⟨1, 1, 0, 0, 0, 0⟩) 3 4).length : Int)
        = min (3 : Int) (max 0 ((5 : Int) - 4))
      ∧ paginate (List.replicate 5 ⟨1, 1, 0, 0, 0, 0⟩) 3 4 ≠ [] :=
  ⟨(c1_page_length (List.replicate 5 ⟨1, 1, 0, 0, 0, 0⟩) 3 4).1,
    (c1_page_length (List.replicate 5 ⟨1, 1, 0, 0, 0, 0⟩) 3 4).2.2 (by decide) (by decide)⟩

/-! ## Claim C2 -/

theorem sortAsc_length (xs : List Nat) : (sortAsc xs).length = xs.length :=
  List.length_insertionSort _ xs

theorem sortAsc_sorted (xs : List Nat) : List.Sorted (· ≤ ·) (sortAsc xs) :=
  List.sorted_insertionSort _ xs

theorem getD_mono_of_sorted {l : List Nat} (h : List.Sorted (· ≤ ·) l)
    {i j : Nat} (hij : i ≤ j) (hj : j < l.length) : l.getD i 0 ≤ l.getD j 0 := by
  have hi : i < l.length := lt_of_le_of_lt hij hj
  rw [List.getD_eq_get _ _ hi, List.getD_eq_get _ _ hj]
  exact h.rel_get_of_le hij

theorem percentileIdx_mono {p q n : Nat} (hpq : p ≤ q) :
    percentileIdx p n ≤ percentileIdx q n := by
  unfold percentileIdx
  have h1 : p * n ≤ q * n := Nat.mul_le_mul_right n hpq
  have h2 : (p * n + 99) / 100 ≤ (q * n + 99) / 100 :=
    Nat.div_le_div_right (by omega)
  omega

theorem percentileIdx_lt {p n : Nat} (hn : 0 < n) : percentileIdx p n < n := by
  unfold percentileIdx
  omega

/-- C2: the response-time percentile function is nearest-rank selection over
the ascending sort; consequently `p50 ≤ p95` for every non-empty sample,
and for the empty sample the average, p50 and p95 all equal 0. -/
theorem c2_percentile_invariant (xs : List Nat) :
    (xs ≠ [] → percentile 50 xs ≤ percentile 95 xs)
      ∧ avgResponseTime [] = 0
      ∧ percentile 50 [] = 0
      ∧ percentile 95 [] = 0 := by
  refine ⟨?_, rfl, rfl, rfl⟩
  intro hne
  have hn : 0 < xs.length := List.length_pos.mpr hne
  have hlen : (sortAsc xs).length = xs.length := sortAsc_length xs
  unfold percentile
  rw [if_neg (by omega), if_neg (by omega)]
  exact getD_mono_of_sorted (sortAsc_sorted xs) (percentileIdx_mono (by omega))
    (by rw [hlen]; exact percentileIdx_lt hn)

/-- C2 witness: the sample `[30, 10, 20]` is non-empty and its p50 (20) is
at most its p95 (30). -/
theorem c2_witness :
    ([30, 10, 20] : List Nat) ≠ [] ∧ percentile 50 [30, 10, 20] ≤ percentile 95 [30, 10, 20] :=
  ⟨by decide, (c2_percentile_invariant [30, 10, 20]).1 (by decide)⟩

/-! ## Claim C3 -/

theorem getD_range_map {α : Type} (f : Nat → α) {n i : Nat} (d : α) (h : i < n) :
    ((List.range n).map f).getD i d = f i := by
  rw [List.getD_eq_getElem _ _ (by simpa using h)]
  simp

/-- C3: for every generation timestamp and message set, the bucketizer
output has exactly 24 hourly and exactly 14 daily buckets, in chronological
order oldest-first with strictly increasing fixed-step timestamps (3600 s
and 86400 s), and every bucket in range appears with its window's message
count — in particular with count 0 when no message lies in the window. -/
theorem c3_bucketizer_shape (t : Int) (msgs : List Message) :
    (hourlyBuckets t msgs).length = 24
      ∧ (dailyBuckets t msgs).length = 14
      ∧ (∀ i, i + 1 < 24 →
          ((hourlyBuckets t msgs).getD (i + 1) ⟨0, 0, 0⟩).bucket
            = ((hourlyBuckets t msgs).getD i ⟨0, 0, 0⟩).bucket + 3600)
      ∧ (∀ i, i + 1 < 14 →
          ((dailyBuckets t msgs).getD (i + 1) ⟨0, 0, 0⟩).bucket
            = ((dailyBuckets t msgs).getD i ⟨0, 0, 0⟩).bucket + 86400)
      ∧ (∀ i, i < 24 →
          ((hourlyBuckets t msgs).getD i ⟨0, 0, 0⟩).messages
            = msgs.countP (inWindow (hourStart t i) 3600))
      ∧ (∀ i, i < 14 →
          ((dailyBuckets t msgs).getD i ⟨0, 0, 0⟩).messages
            = msgs.countP (inWindow (dayStart t i) 86400))
      ∧ (∀ i, i < 24 → (∀ m ∈ msgs, inWindow (hourStart t i) 3600 m = false) →
          ((hourlyBuckets t msgs).getD i ⟨0, 0, 0⟩).messages = 0) := by
  refine ⟨by simp [hourlyBuckets], by simp [dailyBuckets], ?_, ?_, ?_, ?_, ?_⟩
  · intro i h
    rw [hourlyBuckets, getD_range_map _ _ h, getD_range_map _ _ (by omega)]
    simp only [mkBucket, hourStart]
    push_cast
    ring
  · intro i h
    rw [dailyBuckets, getD_range_map _ _ h, getD_range_map _ _ (by omega)]
    simp only [mkBucket, dayStart]
    push_cast
    ring
  · intro i h
    rw [hourlyBuckets, getD_range_map _ _ h]
    rfl
  · intro i h
    rw [dailyBuckets, getD_range_map _ _ h]
    rfl
  · intro i h hz
    rw [hourlyBuckets, getD_range_map _ _ h]
    simp only [mkBucket]
    rw [List.countP_eq_zero]
    intro m hm
    simpa using hz m hm

/-- C3 witness: at generation time 7200 with a single message at time 0,
the hourly series has 24 entries, consecutive hourly buckets are 3600 s
apart, and hourly bucket 0 (whose window contains no message) has count 0. -/
theorem c3_witness :
    (hourlyBuckets 7200 [⟨1, 1, Role.user, [], 0, none, none, none⟩]).length = 24
      ∧ ((hourlyBuckets 7200 [⟨1, 1, Role.user, [], 0, none, none, none⟩]).getD 1
            ⟨0, 0, 0⟩).bucket
          = ((hourlyBuckets 7200 [⟨1, 1, Role.user, [], 0, none, none, none⟩]).getD 0
            ⟨0, 0, 0⟩).bucket + 3600
      ∧ ((hourlyBuckets 7200 [⟨1, 1, Role.user, [], 0, none, none, none⟩]).getD 0
            ⟨0, 0, 0⟩).messages = 0 :=
  ⟨(c3_bucketizer_shape 7200 [⟨1, 1, Role.user, [], 0, none, none, none⟩]).1,
    (c3_bucketizer_shape 7200 [⟨1, 1, Role.user, [], 0, none, none, none⟩]).2.2.1 0
      (by decide),
    (c3_bucketizer_shape 7200 [⟨1, 1, Role.user, [], 0, none, none, none⟩]).2.2.2.2.2.2 0
      (by decide) (by decide)⟩

/-! ## Claim C4 -/

/-- C4: the `has_error` request parameter is tri-state — `some true` exactly
for the with-errors selection, `some false` exactly for without-errors, and
omitted (`none`) exactly when no error filter is selected; and on the
server, `has_error = true` keeps only conversations with `error_count > 0`,
while `date_from`/`date_to` further restrict `last_message_at` to the
inclusive range. -/
theorem c4_has_error_tristate :
    (∀ limit offset search dFrom dTo ef,
        ((queryParams limit offset search dFrom dTo ef).has_error = some true
            ↔ ef = ErrorFilter.with_errors)
      ∧ ((queryParams limit offset search dFrom dTo ef).has_error = some false
            ↔ ef = ErrorFilter.without_errors)
      ∧ ((queryParams limit offset search dFrom dTo ef).has_error = none
            ↔ ef = ErrorFilter.all))
    ∧ (∀ he df dt convs (c : Conversation), c ∈ filterConversations he df dt convs →
        (he = some true → 0 < c.error_count)
      ∧ (∀ a, df = some a → a ≤ c.last_message_at)
      ∧ (∀ b, dt = some b → c.last_message_at ≤ b)) := by
  constructor
  · intro limit offset search dFrom dTo ef
    cases ef <;> simp [queryParams]
  · intro he df dt convs c hc
    have hm := (List.mem_filter.mp hc).2
    unfold convMatches at hm
    simp only [Bool.and_eq_true] at hm
    refine ⟨?_, ?_, ?_⟩
    · rintro rfl
      have := hm.1.1
      simpa using this
    · rintro a rfl
      have := hm.1.2
      simpa using this
    · rintro b rfl
      have := hm.2
      simpa using this

/-- C4 witness: with `has_error = true`, `date_from = 5`, `date_to = 10`,
the conversation with `last_message_at = 7` and `error_count = 2` passes the
filter and satisfies all three restrictions; and the with-errors selection
sends `has_error = true`. -/
theorem c4_witness :
    (queryParams 20 0 "" "" "" ErrorFilter.with_errors).has_error = some true
      ∧ (⟨1, 1, 0, 7, 3, 2⟩ : Conversation)
          ∈ filterConversations (some true) (some 5) (some 10) [⟨1, 1, 0, 7, 3, 2⟩]
      ∧ 0 < (⟨1, 1, 0, 7, 3, 2⟩ : Conversation).error_count
      ∧ (5 : Int) ≤ (⟨1, 1, 0, 7, 3, 2⟩ : Conversation).last_message_at
      ∧ (⟨1, 1, 0, 7, 3, 2⟩ : Conversation).last_message_at ≤ 10 := by
  have hmem : (⟨1, 1, 0, 7, 3, 2⟩ : Conversation)
      ∈ filterConversations (some true) (some 5) (some 10) [⟨1, 1, 0, 7, 3, 2⟩] := by
    decide
  have htri :=
    (c4_has_error_tristate.1 20 0 "" "" "" ErrorFilter.with_errors).1.mpr rfl
  have h := c4_has_error_tristate.2 (some true) (some 5) (some 10)
    [⟨1, 1, 0, 7, 3, 2⟩] ⟨1, 1, 0, 7, 3, 2⟩ hmem
  exact ⟨htri, hmem, h.1 rfl, h.2.1 5 rfl, h.2.2 10 rfl⟩

/-! ## Claim C5 -/

/-- C5: an empty search string produces no search predicate — the
Conversations page omits the `search` parameter, the server-side search
filter with an absent search returns the unfiltered rows, and the
ConversationDetail message filter with an empty query (and neutral other
filters) returns all messages; a non-empty query keeps exactly the messages
matching the case-insensitive substring test. -/
theorem c5_empty_search_no_filter :
    (∀ limit offset dFrom dTo ef,
        (queryParams limit offset "" dFrom dTo ef).search = none)
    ∧ (∀ rows, filterRowsBySearch none rows = rows)
    ∧ (∀ msgs, filteredMessages [] RoleFilter.all false msgs = msgs)
    ∧ (∀ q msgs (m : Message), q ≠ [] →
        (m ∈ filteredMessages q RoleFilter.all false msgs
          ↔ m ∈ msgs ∧ msgMatchesSearch q m = true)) := by
  refine ⟨?_, ?_, ?_, ?_⟩
  · intro limit offset dFrom dTo ef
    simp [queryParams]
  · intro rows
    simp [filterRowsBySearch, rowMatchesSearch]
  · intro msgs
    simp [filteredMessages]
  · intro q msgs m hq
    rw [filteredMessages, List.mem_filter]
    rw [if_neg hq]
    simp

/-- C5 witness: the query `"a"` is non-empty, and the single message with
content `"Cat"` is kept by the message filter exactly because lowercase
`"a"` occurs in lowercase `"cat"`. -/
theorem c5_witness :
    (['a'] : List Char) ≠ []
      ∧ ((⟨1, 1, Role.user, ['C', 'a', 't'], 0, none, none, none⟩ : Message)
            ∈ filteredMessages ['a'] RoleFilter.all false
              [⟨1, 1, Role.user, ['C', 'a', 't'], 0, none, none, none⟩]
          ↔ (⟨1, 1, Role.user, ['C', 'a', 't'], 0, none, none, none⟩ : Message)
            ∈ [(⟨1, 1, Role.user, ['C', 'a', 't'], 0, none, none, none⟩ : Message)]
          ∧ msgMatchesSearch ['a']
              ⟨1, 1, Role.user, ['C', 'a', 't'], 0, none, none, none⟩ = true) :=
  ⟨by decide,
    (c5_empty_search_no_filter.2.2.2 ['a']
      [⟨1, 1, Role.user, ['C', 'a', 't'], 0, none, none, none⟩]
      ⟨1, 1, Role.user, ['C', 'a', 't'], 0, none, none, none⟩ (by decide))⟩

/-! ## Claim C6 -/

/-- C6: for every conversation identifier not present in the store, the
conversation-detail operation fails with `NotFound` and never returns a
default empty conversation; for every identifier that exists, it returns
the complete unpaginated message thread — every message of the conversation
is in the response. -/
theorem c6_detail_not_found (st : Store) (id : Nat) :
    ((∀ c ∈ st.conversations, c.id ≠ id) →
        getConversation st id = Except.error AdminError.notFound)
      ∧ (∀ d, getConversation st id = Except.ok d →
          d.messages = st.messages.filter (fun m => m.conversation_id == id)
            ∧ ∀ m ∈ st.messages, m.conversation_id = id → m ∈ d.messages) := by
  constructor
  · intro h
    have hnone : st.conversations.find? (fun c => c.id == id) = none := by
      rw [List.find?_eq_none]
      intro c hc
      simpa using h c hc
    simp [getConversation, hnone]
  · intro d hd
    unfold getConversation at hd
    cases hfind : st.conversations.find? (fun c => c.id == id) with
    | none => rw [hfind] at hd; cases hd
    | some c =>
        rw [hfind] at hd
        cases hd
        refine ⟨rfl, ?_⟩
        intro m hm hid
        exact List.mem_filter.mpr ⟨hm, by simpa using hid⟩

/-- C6 witness: in a store holding only conversation 1, id 42 yields
`NotFound`, while id 1 yields the full thread containing its message. -/
theorem c6_witness :
    getConversation
        ⟨[⟨1, 1, 0, 7, 1, 0⟩], [⟨9, 1, Role.user, [], 0, none, none, none⟩]⟩ 42
      = Except.error AdminError.notFound
      ∧ (⟨9, 1, Role.user, [], 0, none, none, none⟩ : Message)
          ∈ (⟨⟨1, 1, 0, 7, 1, 0⟩, [⟨9, 1, Role.user, [], 0, none, none, none⟩]⟩ :
              ConvDetail).messages := by
  constructor
  · exact (c6_detail_not_found
      ⟨[⟨1, 1, 0, 7, 1, 0⟩], [⟨9, 1, Role.user, [], 0, none, none, none⟩]⟩ 42).1
      (by decide)
  · have h := (c6_detail_not_found
      ⟨[⟨1, 1, 0, 7, 1, 0⟩], [⟨9, 1, Role.user, [], 0, none, none, none⟩]⟩ 1).2
      ⟨⟨1, 1, 0, 7, 1, 0⟩, [⟨9, 1, Role.user, [], 0, none, none, none⟩]⟩ rfl
    exact h.2 ⟨9, 1, Role.user, [], 0, none, none, none⟩ (by simp) rfl

/-! ## Claim C7 -/

theorem parseField_omitted (name : String) (d : Nat) :
    parseField name none d = Except.ok d := rfl

theorem parseField_some (name s : String) (d : Nat) :
    parseField name (some s) d
      = match strToInt s with
        | none => Except.error (AdminError.invalidParam name)
        | some n =>
            if n < 0 then Except.error (AdminError.invalidParam name)
            else Except.ok n.toNat := rfl

theorem parseField_valid (name s : String) {n : Int} (d : Nat)
    (hst : strToInt s = some n) (hn : 0 ≤ n) :
    parseField name (some s) d = Except.ok n.toNat := by
  rw [parseField_some, hst]
  exact if_neg (not_lt.mpr hn)

theorem parseField_invalid (name s : String) (d : Nat)
    (h : strToInt s = none ∨ ∃ n, strToInt s = some n ∧ n < 0) :
    parseField name (some s) d = Except.error (AdminError.invalidParam name) := by
  rcases h with h | ⟨n, hn, hneg⟩
  · rw [parseField_some, h]
  · rw [parseField_some, hn]
    exact if_pos hneg

/-- C7: for every list-endpoint request — every combination of omitted,
valid and invalid (non-numeric or negative) `limit`/`offset` values — an
omitted field takes its default (50 for limit, 0 for offset) whatever the
other field is, and any invalid field fails the request with a client error
naming that field, never silently clamped: an invalid limit fails naming
`limit` for every offset, and an invalid offset fails naming `offset` both
with the limit omitted and with any valid limit supplied. -/
theorem c7_param_defaults_and_validation :
    parseListParams none none = Except.ok (50, 0)
      ∧ (∀ (s : String) (n : Int), strToInt s = some n → 0 ≤ n →
          parseListParams none (some s) = Except.ok (50, n.toNat))
      ∧ (∀ (s : String) (n : Int), strToInt s = some n → 0 ≤ n →
          parseListParams (some s) none = Except.ok (n.toNat, 0))
      ∧ (∀ (sl : String) (nl : Int) (so : String) (no' : Int),
          strToInt sl = some nl → 0 ≤ nl → strToInt so = some no' → 0 ≤ no' →
          parseListParams (some sl) (some so) = Except.ok (nl.toNat, no'.toNat))
      ∧ (∀ (s : String) (offsetRaw : Option String),
          (strToInt s = none ∨ ∃ n, strToInt s = some n ∧ n < 0) →
          parseListParams (some s) offsetRaw
            = Except.error (AdminError.invalidParam "limit"))
      ∧ (∀ s : String, (strToInt s = none ∨ ∃ n, strToInt s = some n ∧ n < 0) →
          parseListParams none (some s)
            = Except.error (AdminError.invalidParam "offset"))
      ∧ (∀ (sl : String) (nl : Int) (s : String),
          strToInt sl = some nl → 0 ≤ nl →
          (strToInt s = none ∨ ∃ n, strToInt s = some n ∧ n < 0) →
          parseListParams (some sl) (some s)
            = Except.error (AdminError.invalidParam "offset")) := by
  refine ⟨rfl, ?_, ?_, ?_, ?_, ?_, ?_⟩
  · intro s n hst hn
    unfold parseListParams
    rw [parseField_omitted, parseField_valid "offset" s 0 hst hn]
  · intro s n hst hn
    unfold parseListParams
    rw [parseField_valid "limit" s 50 hst hn, parseField_omitted]
  · intro sl nl so no' hsl hnl hso hno
    unfold parseListParams
    rw [parseField_valid "limit" sl 50 hsl hnl, parseField_valid "offset" so 0 hso hno]
  · intro s offsetRaw h
    unfold parseListParams
    rw [parseField_invalid "limit" s 50 h]
  · intro s h
    unfold parseListParams
    rw [parseField_omitted, parseField_invalid "offset" s 0 h]
  · intro sl nl s hsl hnl h
    unfold parseListParams
    rw [parseField_valid "limit" sl 50 hsl hnl, parseField_invalid "offset" s 0 h]

/-- C7 witness, one concrete request per combination: both omitted gives
`(50, 0)`; omitted limit with offset `"7"` gives `(50, 7)`; limit `"3"`
with omitted offset gives `(3, 0)`; `"3"`/`"7"` gives `(3, 7)`;
non-numeric limit `"x"` fails naming `limit`; negative offset `"-1"` fails
naming `offset` both with the limit omitted and with the valid limit `"3"`
supplied. -/
theorem c7_witness :
    parseListParams none none = Except.ok (50, 0)
      ∧ parseListParams none (some "7") = Except.ok (50, 7)
      ∧ parseListParams (some "3") none = Except.ok (3, 0)
      ∧ parseListParams (some "3") (some "7") = Except.ok (3, 7)
      ∧ parseListParams (some "x") (some "7")
          = Except.error (AdminError.invalidParam "limit")
      ∧ parseListParams none (some "-1")
          = Except.error (AdminError.invalidParam "offset")
      ∧ parseListParams (some "3") (some "-1")
          = Except.error (AdminError.invalidParam "offset") :=
  ⟨c7_param_defaults_and_validation.1,
    c7_param_defaults_and_validation.2.1 "7" 7 (by decide) (by decide),
    c7_param_defaults_and_validation.2.2.1 "3" 3 (by decide) (by decide),
    c7_param_defaults_and_validation.2.2.2.1 "3" 3 "7" 7
      (by decide) (by decide) (by decide) (by decide),
    c7_param_defaults_and_validation.2.2.2.2.1 "x" (some "7") (Or.inl (by decide)),
    c7_param_defaults_and_validation.2.2.2.2.2.1 "-1"
      (Or.inr ⟨-1, by decide, by decide⟩),
    c7_param_defaults_and_validation.2.2.2.2.2.2 "3" 3 "-1" (by decide) (by decide)
      (Or.inr ⟨-1, by decide, by decide⟩)⟩

/-! ## Claim C8 -/

/-- C8: a tools request without an explicit limit uses limit 8, and the
returned list is the sorted-by-rank (usage count descending, name-ascending
ties) permutation of the tool rows truncated to the limit — the top-N. -/
theorem c8_tools_default_limit_and_ranking :
    getToolsLimit none = 8
      ∧ (∀ tools : List Tool,
          List.Sorted toolRank (List.insertionSort toolRank tools)
            ∧ List.Perm (List.insertionSort toolRank tools) tools)
      ∧ (∀ (tools : List Tool) (limit : Nat),
          topTools tools limit = (List.insertionSort toolRank tools).take limit
            ∧ (topTools tools limit).length = min limit tools.length
            ∧ List.Sorted toolRank (topTools tools limit)) := by
  refine ⟨rfl, ?_, ?_⟩
  · intro tools
    exact ⟨List.sorted_insertionSort toolRank tools,
      List.perm_insertionSort toolRank tools⟩
  · intro tools limit
    refine ⟨rfl, ?_, ?_⟩
    · simp [topTools, List.length_insertionSort]
    · exact List.Pairwise.take (List.sorted_insertionSort toolRank tools)

/-! ## Claim C9 -/

theorem maxCount_ge_one (tools : List Tool) : 1 ≤ maxCount tools := by
  induction tools with
  | nil => simp [maxCount]
  | cons t ts ih =>
      simp only [maxCount, List.map_cons, List.foldr_cons]
      exact le_max_of_le_right (by simpa [maxCount] using ih)

/-- C9: for every tools array, including the empty array and arrays whose
counts are all zero, the denominator `maxCount` computed by ToolsList is at
least 1, hence nonzero, so `(count / maxCount) * 100` never divides by zero. -/
theorem c9_maxCount_positive (tools : List Tool) :
    1 ≤ maxCount tools ∧ maxCount tools ≠ 0 := by
  refine ⟨maxCount_ge_one tools, ?_⟩
  have h := maxCount_ge_one tools
  omega

/-! ## Claim C10 -/

/-- C10 counterexample: the claim quantifies over every `total ≥ 0`, but at
`total = 0`, `limit = 1` the initial offset 0 is reachable and is not
strictly less than `total`. -/
theorem c10_counterexample :
    Reach 0 1 0 ∧ ¬ (0 < 0) := ⟨Reach.init, by omega⟩

/-- C10 (amended): for every fixed `total ≥ 1` and `limit ≥ 1`, every offset
reachable in the DataTable pagination transition system is a non-negative
multiple of `limit` strictly less than `total`. -/
theorem c10_reachable_offset_invariant (total limit o : Nat)
    (hl : 1 ≤ limit) (ht : 1 ≤ total) (h : Reach total limit o) :
    limit ∣ o ∧ o < total := by
  induction h with
  | init => exact ⟨Dvd.intro 0 rfl, ht⟩
  | prev _ _ ih =>
      refine ⟨Nat.dvd_sub' ih.1 (dvd_refl limit), ?_⟩
      exact lt_of_le_of_lt (Nat.sub_le _ _) ih.2
  | next _ hen ih =>
      exact ⟨Nat.dvd_add ih.1 (dvd_refl limit), hen⟩

/-- C10 witness: with `total = 5`, `limit = 2`, one Next click reaches
offset 2, which is a multiple of 2 strictly below 5. -/
theorem c10_witness :
    1 ≤ 2 ∧ 1 ≤ 5 ∧ (2 ∣ 2 ∧ 2 < 5) :=
  ⟨by decide, by decide,
    c10_reachable_offset_invariant 5 2 2 (by decide) (by decide)
      (by simpa using @Reach.next 5 2 0 Reach.init (by decide))⟩

end Admin
